import Mathlib

/-!
Verification development for the telemetry core of the apples2oranges
repository (src/src-tauri/src).  Rust `f64` values are modelled as exact
rationals (`ℚ`), `u64` values as `ℕ` (with explicit wrap-around where the
source relies on machine arithmetic), fallible code as `Except`/`Option`.
Each definition is a shallow embedding of the correspondingly named Rust
item; environment inputs (sysctl values, sensor enumerations, subprocess
records, wall-clock readings) are passed as explicit arguments.
-/

namespace A2O

/-- Embeds `ThermalTrend` (src/src-tauri/src/hardware/temperature.rs). -/
inductive ThermalTrend where
  | Cooling
  | Heating
  | Stable
  | Rapid
deriving DecidableEq, Repr

/-- Embeds `CoreTemperatureData` (src/src-tauri/src/hardware/temperature.rs). -/
structure CoreTemperatureData where
  p_cores : List ℚ
  e_cores : List ℚ
  cpu_temp_avg : ℚ
  cpu_temp_max : ℚ
  cpu_temp_min : ℚ
  gpu_temps : List ℚ
  gpu_temp_avg : Option ℚ
  gpu_temp_max : Option ℚ
  battery_temp_avg : Option ℚ
  thermal_trend : ThermalTrend
deriving DecidableEq, Repr

/-- Embeds `TelemetryUpdate` (src/src-tauri/src/telemetry/types.rs). -/
structure TelemetryUpdate where
  timestamp_ms : ℕ
  cpu_power_watts : Option ℚ
  gpu_power_watts : Option ℚ
  ane_power_watts : Option ℚ
  cpu_temp_celsius : Option ℚ
  gpu_temp_celsius : Option ℚ
  cpu_freq_mhz : Option ℚ
  gpu_freq_mhz : Option ℚ
  ram_usage_gb : Option ℚ
  thermal_pressure : Option String
  ttft_ms : Option ℕ
  current_tps : Option ℚ
  instantaneous_tps : Option ℚ
  generation_time_ms : Option ℕ
  model : Option String
  cpu_temp_avg : Option ℚ
  cpu_temp_max : Option ℚ
  cpu_p_core_temps : Option (List ℚ)
  cpu_e_core_temps : Option (List ℚ)
  gpu_temp_avg : Option ℚ
  gpu_temp_max : Option ℚ
  gpu_cluster_temps : Option (List ℚ)
  battery_temp_avg : Option ℚ
  cpu_p_core_utilization : Option (List ℚ)
  cpu_e_core_utilization : Option (List ℚ)
  cpu_overall_utilization : Option ℚ
  core_temperatures : Option CoreTemperatureData
  total_energy_wh : Option ℚ
  cpu_energy_wh : Option ℚ
  gpu_energy_wh : Option ℚ
  ane_energy_wh : Option ℚ
  energy_rate_wh_per_token : Option ℚ
deriving DecidableEq, Repr

/-- Embeds `PowerCalculator` (src/src-tauri/src/telemetry/power_calculator.rs). -/
structure PowerCalculator where
  previous_telemetry : Option TelemetryUpdate
  cumulative_cpu_energy_wh : ℚ
  cumulative_gpu_energy_wh : ℚ
  cumulative_ane_energy_wh : ℚ
  session_start_timestamp : Option ℕ
deriving DecidableEq, Repr

/-- Embeds `PowerCalculator::new`. -/
def PowerCalculator.new : PowerCalculator :=
  { previous_telemetry := none
    cumulative_cpu_energy_wh := 0
    cumulative_gpu_energy_wh := 0
    cumulative_ane_energy_wh := 0
    session_start_timestamp := none }

/-- Embeds `PowerCalculator::update_with_telemetry`.  The Rust source
computes the unchecked `u64` difference
`telemetry.timestamp_ms - prev.timestamp_ms`; the embedding makes the
underflow case explicit as an `Except.error` (in Rust it panics in debug
builds and wraps in release builds — either way it is an arithmetic
hazard, never a meaningful energy value).  On the non-underflow path the
subtraction agrees with `ℕ` subtraction.  Returns the new calculator
state together with the returned (mutated) telemetry. -/
def PowerCalculator.update_with_telemetry (c : PowerCalculator)
    (telemetry : TelemetryUpdate) :
    Except String (PowerCalculator × TelemetryUpdate) :=
  let session_start := match c.session_start_timestamp with
    | none => some telemetry.timestamp_ms
    | some s => some s
  match c.previous_telemetry with
  | some prev =>
    if telemetry.timestamp_ms < prev.timestamp_ms then
      Except.error "u64 underflow in timestamp delta"
    else
      let dt_hours : ℚ := ((telemetry.timestamp_ms - prev.timestamp_ms : ℕ) : ℚ) / 3600000
      let ccpu := c.cumulative_cpu_energy_wh +
        (match prev.cpu_power_watts, telemetry.cpu_power_watts with
         | some p1, some p2 => (p1 + p2) * dt_hours / 2
         | _, _ => 0)
      let cgpu := c.cumulative_gpu_energy_wh +
        (match prev.gpu_power_watts, telemetry.gpu_power_watts with
         | some p1, some p2 => (p1 + p2) * dt_hours / 2
         | _, _ => 0)
      let cane := c.cumulative_ane_energy_wh +
        (match prev.ane_power_watts, telemetry.ane_power_watts with
         | some p1, some p2 => (p1 + p2) * dt_hours / 2
         | _, _ => 0)
      let out := { telemetry with
        total_energy_wh := some (ccpu + cgpu + cane)
        cpu_energy_wh := some ccpu
        gpu_energy_wh := some cgpu
        ane_energy_wh := some cane }
      Except.ok
        ({ previous_telemetry := some out
           cumulative_cpu_energy_wh := ccpu
           cumulative_gpu_energy_wh := cgpu
           cumulative_ane_energy_wh := cane
           session_start_timestamp := session_start }, out)
  | none =>
      let out := { telemetry with
        total_energy_wh := some (c.cumulative_cpu_energy_wh +
          c.cumulative_gpu_energy_wh + c.cumulative_ane_energy_wh)
        cpu_energy_wh := some c.cumulative_cpu_energy_wh
        gpu_energy_wh := some c.cumulative_gpu_energy_wh
        ane_energy_wh := some c.cumulative_ane_energy_wh }
      Except.ok
        ({ c with
           previous_telemetry := some out
           session_start_timestamp := session_start }, out)

/-- Embeds `PowerCalculator::reset`. -/
def PowerCalculator.reset (_c : PowerCalculator) : PowerCalculator :=
  { previous_telemetry := none
    cumulative_cpu_energy_wh := 0
    cumulative_gpu_energy_wh := 0
    cumulative_ane_energy_wh := 0
    session_start_timestamp := none }

/-- Iterates `update_with_telemetry` over a list of samples, stopping at
the first error (mirrors a sequence of calls on one calculator). -/
def runUpdates (c : PowerCalculator) : List TelemetryUpdate → Except String PowerCalculator
  | [] => Except.ok c
  | t :: ts =>
    match c.update_with_telemetry t with
    | Except.error e => Except.error e
    | Except.ok (cNext, _) => runUpdates cNext ts

/-- Mirrors the `create_test_telemetry` helper of the Rust test module:
a telemetry sample with the given timestamp and power values and every
other field `None`. -/
def create_test_telemetry (timestamp_ms : ℕ)
    (cpu_power gpu_power ane_power : Option ℚ) : TelemetryUpdate :=
  { timestamp_ms := timestamp_ms
    cpu_power_watts := cpu_power
    gpu_power_watts := gpu_power
    ane_power_watts := ane_power
    cpu_temp_celsius := none
    gpu_temp_celsius := none
    cpu_freq_mhz := none
    gpu_freq_mhz := none
    ram_usage_gb := none
    thermal_pressure := none
    ttft_ms := none
    current_tps := none
    instantaneous_tps := none
    generation_time_ms := none
    model := none
    cpu_temp_avg := none
    cpu_temp_max := none
    cpu_p_core_temps := none
    cpu_e_core_temps := none
    gpu_temp_avg := none
    gpu_temp_max := none
    gpu_cluster_temps := none
    battery_temp_avg := none
    cpu_p_core_utilization := none
    cpu_e_core_utilization := none
    cpu_overall_utilization := none
    core_temperatures := none
    total_energy_wh := none
    cpu_energy_wh := none
    gpu_energy_wh := none
    ane_energy_wh := none
    energy_rate_wh_per_token := none }

/-- Spec-side formula: the trapezoidal contribution of one domain over one
step — `(P1 + P2) * dt / 2` when both endpoint values are present,
`0` otherwise. -/
def trapezoidStep (p1 p2 : Option ℚ) (dt_hours : ℚ) : ℚ :=
  match p1, p2 with
  | some a, some b => (a + b) * dt_hours / 2
  | _, _ => 0

/-- Embeds `DetectionMethod` (src/src-tauri/src/hardware/cpu_monitor.rs). -/
inductive DetectionMethod where
  | SysctlDynamic
  | ChipLookup
  | TotalCountHeuristic
deriving DecidableEq, Repr

/-- Embeds `AppleSiliconInfo` (src/src-tauri/src/hardware/cpu_monitor.rs). -/
structure AppleSiliconInfo where
  chip_name : String
  total_cores : ℕ
  p_cores : ℕ
  e_cores : ℕ
  detection_method : DetectionMethod
deriving DecidableEq, Repr

/-- Platform environment consumed by the detection tiers: the two sysctl
core-count keys (`hw.perflevel0.physicalcpu`, `hw.perflevel1.physicalcpu`)
and the chip brand string (`machdep.cpu.brand_string`); `none` models a
missing/failed sysctl key. -/
structure SysctlEnv where
  perflevel0_physicalcpu : Option ℕ
  perflevel1_physicalcpu : Option ℕ
  brand_string : Option String
deriving DecidableEq, Repr

/-- Mirrors Rust `str::starts_with` via the underlying character lists
(equivalent on the UTF-8 strings involved). -/
def strStartsWith (s pat : String) : Bool :=
  pat.data.isPrefixOf s.data

/-- Mirrors Rust `str::to_lowercase` via a per-character lowering
(equivalent on the ASCII sensor names and patterns involved). -/
def strToLower (s : String) : String :=
  String.mk (s.data.map Char.toLower)

/-- Embeds `parse_apple_chip_model`: strip the vendor prefix, accept only
names starting with the M letter of length at least 2 (byte length in
Rust, character length here — these agree on the ASCII names involved). -/
def parse_apple_chip_model (brand : String) : Option String :=
  if strStartsWith brand "Apple " then
    let chip_part := brand.drop 6
    if strStartsWith chip_part "M" ∧ 2 ≤ chip_part.length then some chip_part
    else none
  else none

/-- Embeds `get_apple_chip_name` over the explicit environment. -/
def get_apple_chip_name (env : SysctlEnv) : Option String :=
  env.brand_string.bind parse_apple_chip_model

/-- Embeds the static `APPLE_SILICON_CONFIGS` table keyed by
`(chip model, total cores)`; all keys are distinct, so the association
list has the same lookup semantics as the Rust `HashMap`. -/
def APPLE_SILICON_CONFIGS : List ((String × ℕ) × (ℕ × ℕ)) :=
  [ (("M1", 8), (4, 4))
  , (("M1 Pro", 8), (6, 2))
  , (("M1 Pro", 10), (8, 2))
  , (("M1 Max", 10), (8, 2))
  , (("M1 Ultra", 20), (16, 4))
  , (("M2", 8), (4, 4))
  , (("M2 Pro", 10), (6, 4))
  , (("M2 Pro", 12), (8, 4))
  , (("M2 Max", 12), (8, 4))
  , (("M2 Ultra", 24), (16, 8))
  , (("M3", 8), (4, 4))
  , (("M3 Pro", 11), (5, 6))
  , (("M3 Pro", 12), (6, 6))
  , (("M3 Max", 14), (10, 4))
  , (("M3 Max", 16), (12, 4))
  , (("M4", 9), (3, 6))
  , (("M4", 10), (4, 6))
  , (("M4 Pro", 12), (8, 4))
  , (("M4 Pro", 14), (10, 4))
  , (("M4 Max", 14), (10, 4))
  , (("M4 Max", 16), (12, 4))
  , (("M4 Ultra", 28), (20, 8))
  , (("M4 Ultra", 32), (24, 8)) ]

/-- Embeds `try_sysctl_detection`: read both per-level physical core
counts; accept only when both are positive, P ≤ 24, E ≤ 8 and the sum is
at most 32. -/
def try_sysctl_detection (env : SysctlEnv) : Option (ℕ × ℕ) :=
  match env.perflevel0_physicalcpu, env.perflevel1_physicalcpu with
  | some p_cores, some e_cores =>
    if 0 < p_cores ∧ 0 < e_cores ∧ p_cores ≤ 24 ∧ e_cores ≤ 8 ∧ p_cores + e_cores ≤ 32 then
      some (p_cores, e_cores)
    else none
  | _, _ => none

/-- Embeds `try_chip_lookup_detection`: look up the parsed chip name with
the total core count in the static table; accept only an exact match. -/
def try_chip_lookup_detection (env : SysctlEnv) (total_cores : ℕ) :
    Option (ℕ × ℕ × String) :=
  (get_apple_chip_name env).bind fun chip_name =>
    match APPLE_SILICON_CONFIGS.lookup (chip_name, total_cores) with
    | some (p, e) => some (p, e, chip_name)
    | none => none

/-- Embeds `fallback_core_count_detection`: fixed splits for known total
core counts, otherwise a 60/40 split favouring P-cores (integer
truncation on the P count, the remainder to E). -/
def fallback_core_count_detection (total_cores : ℕ) : ℕ × ℕ :=
  match total_cores with
  | 8 => (4, 4)
  | 9 => (3, 6)
  | 10 => (4, 6)
  | 11 => (5, 6)
  | 12 => (8, 4)
  | 14 => (10, 4)
  | 16 => (12, 4)
  | 20 => (16, 4)
  | 24 => (16, 8)
  | 28 => (20, 8)
  | 32 => (24, 8)
  | _ =>
    let p_cores := total_cores * 3 / 5
    let e_cores := total_cores - p_cores
    (p_cores, e_cores)

/-- Embeds `detect_apple_silicon_configuration`: apply the three detection
tiers in strict priority order; always returns a result. -/
def detect_apple_silicon_configuration (env : SysctlEnv) (total_cores : ℕ) :
    AppleSiliconInfo :=
  match try_sysctl_detection env with
  | some (p_cores, e_cores) =>
    { chip_name := (get_apple_chip_name env).getD "Apple Silicon"
      total_cores := total_cores
      p_cores := p_cores
      e_cores := e_cores
      detection_method := DetectionMethod.SysctlDynamic }
  | none =>
    match try_chip_lookup_detection env total_cores with
    | some (p_cores, e_cores, chip_name) =>
      { chip_name := chip_name
        total_cores := total_cores
        p_cores := p_cores
        e_cores := e_cores
        detection_method := DetectionMethod.ChipLookup }
    | none =>
      let pe := fallback_core_count_detection total_cores
      { chip_name := (get_apple_chip_name env).getD "Unknown Apple Silicon"
        total_cores := total_cores
        p_cores := pe.1
        e_cores := pe.2
        detection_method := DetectionMethod.TotalCountHeuristic }

/-- Occurrence of `pat` as a contiguous sublist of `s`. -/
def listContainsSub (pat : List Char) : List Char → Bool
  | [] => pat.isEmpty
  | c :: rest => pat.isPrefixOf (c :: rest) || listContainsSub pat rest

/-- Substring test mirroring Rust `str::contains` via the underlying
character lists (equivalent on the UTF-8 strings involved). -/
def strContains (s pat : String) : Bool :=
  listContainsSub pat.data s.data

/-- The per-service loop body of
`IOHIDTemperatureSensors::get_temperature_readings`: skip services whose
temperature event is null, discard values outside the open interval
`(0, 150)` as sentinel/invalid, keep `(name, value)` otherwise. -/
def usableReadings (l : List (String × Option ℚ)) : List (String × ℚ) :=
  l.filterMap fun s =>
    match s.2 with
    | some temperature =>
      if 0 < temperature ∧ temperature < 150 then some (s.1, temperature) else none
    | none => none

/-- Embeds `IOHIDTemperatureSensors::get_temperature_readings` as a pure
function of the enumerated services.  `none` for the service array models
the null `CFArray` (enumeration failure); each service carries its sensor
name and its temperature event value (`none` models a null event). -/
def get_temperature_readings (services : Option (List (String × Option ℚ))) :
    Except String (List (String × ℚ)) :=
  match services with
  | none => Except.error "Failed to get IOHID services"
  | some l => Except.ok (usableReadings l)

/-- One pass of the sensor-name categorization of `read_core_temperatures`
(first matching pattern wins, preserving enumeration order):
performance-area, efficiency-area, GPU, battery, other.  The source has
two distinct final branches (generic-CPU names and unmatched names) that
both push onto `other_temps`; they are collapsed here. -/
def categorize_sensors : List (String × ℚ) →
    List ℚ × List ℚ × List ℚ × List ℚ × List ℚ
  | [] => ([], [], [], [], [])
  | (name, temp) :: rest =>
    let acc := categorize_sensors rest
    let p := acc.1
    let e := acc.2.1
    let g := acc.2.2.1
    let b := acc.2.2.2.1
    let o := acc.2.2.2.2
    if strContains name "pACC MTR Temp Sensor" || strContains (strToLower name) "performance" then
      (temp :: p, e, g, b, o)
    else if strContains name "eACC MTR Temp Sensor" || strContains (strToLower name) "efficiency" then
      (p, temp :: e, g, b, o)
    else if strContains name "GPU MTR Temp Sensor" || strContains (strToLower name) "gpu" then
      (p, e, temp :: g, b, o)
    else if strContains name "gas gauge battery" then
      (p, e, g, temp :: b, o)
    else
      (p, e, g, b, temp :: o)

/-- Maximum of a list of rationals; on the non-empty lists this is applied
to, it equals the source's fold of `f64::max` seeded with `-∞` (the empty
case is unreachable behind the emptiness guards). -/
def foldMaxQ : List ℚ → ℚ
  | [] => 0
  | x :: xs => xs.foldl max x

/-- Minimum counterpart of `foldMaxQ` (source seeds with `+∞`). -/
def foldMinQ : List ℚ → ℚ
  | [] => 0
  | x :: xs => xs.foldl min x

/-- Embeds `read_core_temperatures` as a pure function of the environment:
`init` is the outcome of `IOHIDTemperatureSensors::new`, `services` the
enumerated sensor array (see `get_temperature_readings`). -/
def read_core_temperatures (init : Except String Unit)
    (services : Option (List (String × Option ℚ))) :
    Except String CoreTemperatureData :=
  match init with
  | Except.error e => Except.error ("IOHID initialization failed: " ++ e)
  | Except.ok _ =>
    match get_temperature_readings services with
    | Except.error e => Except.error ("Temperature reading failed: " ++ e)
    | Except.ok temperature_readings =>
      if temperature_readings.isEmpty then
        Except.error "No temperature sensors found via IOHIDEventSystemClient"
      else
        let cats := categorize_sensors temperature_readings
        let p_cores0 := cats.1
        let e_cores0 := cats.2.1
        let gpu_temps := cats.2.2.1
        let battery_sensors := cats.2.2.2.1
        let other_temps := cats.2.2.2.2
        -- heuristic split: first 2/3 of the uncategorized sensors as
        -- performance area, the rest as efficiency area
        let pe :=
          if p_cores0.isEmpty ∧ e_cores0.isEmpty ∧ ¬ other_temps.isEmpty then
            let mid := other_temps.length * 2 / 3
            (other_temps.take mid, other_temps.drop mid)
          else (p_cores0, e_cores0)
        let p_cores := pe.1
        let e_cores := pe.2
        let all_cpu_temps := p_cores ++ e_cores
        if all_cpu_temps.isEmpty then
          Except.error "No CPU temperature sensors found"
        else
          Except.ok
            { p_cores := p_cores
              e_cores := e_cores
              cpu_temp_avg := all_cpu_temps.sum / (all_cpu_temps.length : ℚ)
              cpu_temp_max := foldMaxQ all_cpu_temps
              cpu_temp_min := foldMinQ all_cpu_temps
              gpu_temps := gpu_temps
              gpu_temp_avg :=
                if ¬ gpu_temps.isEmpty then some (gpu_temps.sum / (gpu_temps.length : ℚ))
                else none
              gpu_temp_max :=
                if ¬ gpu_temps.isEmpty then some (foldMaxQ gpu_temps) else none
              battery_temp_avg :=
                if ¬ battery_sensors.isEmpty then
                  some (battery_sensors.sum / (battery_sensors.length : ℚ))
                else none
              thermal_trend := ThermalTrend.Stable }

/-- Spec-side predicate: a sensor name that the categorization pass sends
to one of the CPU-area buckets (performance, efficiency or other), i.e.
anything not exclusively matched as a GPU or battery sensor. -/
def isCpuAreaSensor (name : String) : Bool :=
  (strContains name "pACC MTR Temp Sensor" || strContains (strToLower name) "performance") ||
  ((strContains name "eACC MTR Temp Sensor" || strContains (strToLower name) "efficiency") ||
   (!(strContains name "GPU MTR Temp Sensor" || strContains (strToLower name) "gpu") &&
    !(strContains name "gas gauge battery")))

/-- Embeds `TemperatureHistory` (src/src-tauri/src/hardware/temperature.rs). -/
structure TemperatureHistory where
  readings : List (ℕ × ℚ)
  max_size : ℕ
deriving DecidableEq, Repr

/-- Embeds `TemperatureHistory::add_reading`: append, then evict the
oldest entry if capacity is exceeded. -/
def TemperatureHistory.add_reading (h : TemperatureHistory) (timestamp : ℕ)
    (temp : ℚ) : TemperatureHistory :=
  let r := h.readings ++ [(timestamp, temp)]
  { h with readings := if h.max_size < r.length then r.tail else r }

/-- Wrapping `u64` subtraction on already-reduced values (`a, b < 2^64`),
as performed by `now - ts` in release builds. -/
def wsub64 (a b : ℕ) : ℕ :=
  (a + 2 ^ 64 - b) % 2 ^ 64

/-- Embeds `TemperatureHistory::get_trend`.  The `getD` defaults stand for
the source's `unwrap`/index accesses, which are unreachable behind the
length guards. -/
def TemperatureHistory.get_trend (h : TemperatureHistory) (window_ms : ℕ) :
    ThermalTrend :=
  if h.readings.length < 3 then ThermalTrend.Stable
  else
    let now := (h.readings.getLast?.getD (0, 0)).1
    let recent := h.readings.filter fun r => wsub64 now r.1 ≤ window_ms
    if recent.length < 3 then ThermalTrend.Stable
    else
      let first_temp := (recent.head?.getD (0, 0)).2
      let last_temp := (recent.getLast?.getD (0, 0)).2
      let temp_change := last_temp - first_temp
      if temp_change > 5 then ThermalTrend.Rapid
      else if temp_change > 1 then ThermalTrend.Heating
      else if temp_change < -5 then ThermalTrend.Rapid
      else if temp_change < -1 then ThermalTrend.Cooling
      else ThermalTrend.Stable

/-- Spec-side: the stored samples that fall within the trailing window
ending at the last sample (true arithmetic difference, as the spec reads
it). -/
def inWindowSpec (h : TemperatureHistory) (window_ms : ℕ) : List (ℕ × ℚ) :=
  h.readings.filter fun r =>
    (h.readings.getLast?.getD (0, 0)).1 - r.1 ≤ window_ms

/-- Spec-side trend classification of `Δ = last − first`:
`Δ > 5 → Rapid`, `1 < Δ ≤ 5 → Heating`, `Δ < −5 → Rapid`,
`−5 ≤ Δ < −1 → Cooling`, else Stable. -/
def classifyTrendSpec (d : ℚ) : ThermalTrend :=
  if 5 < d then ThermalTrend.Rapid
  else if 1 < d ∧ d ≤ 5 then ThermalTrend.Heating
  else if d < -5 then ThermalTrend.Rapid
  else if -5 ≤ d ∧ d < -1 then ThermalTrend.Cooling
  else ThermalTrend.Stable

/-- The cooldown phase tag of `CooldownUpdateEvent.state`
(src/src-tauri/src/commands/generation.rs). -/
inductive CooldownPhase where
  | started
  | progress
  | complete
  | timeout
  | canceled
deriving DecidableEq, Repr

/-- Embeds the margin clamp of `run_generation_turn`:
`margin_c_raw.max(-20.0).min(20.0)`. -/
def clampCooldownMargin (margin_c_raw : ℚ) : ℚ :=
  min (max margin_c_raw (-20)) 20

/-- One poll observation of the cooldown wait loop: the cooperative stop
flag at the top of the iteration, the wall-clock seconds elapsed since
the wait started (an oracle for `start_wait.elapsed().as_secs()`), and
the temperature read outcome (`none` models a read failure). -/
structure CooldownPoll where
  stop_flag : Bool
  elapsed_s : ℕ
  reading : Option ℚ
deriving DecidableEq, Repr

/-- Embeds the cooldown poll loop of `run_generation_turn` (Both-target
branch) as the sequence of `cooldown_update` phases it emits, driven by a
list of poll observations.  Per iteration: a set stop flag emits
`canceled` and exits; a failed read emits `canceled` and exits; a
successful read emits `progress`, then `complete` and exit if the reading
is at or below the threshold, then `timeout` and exit once 300 s have
elapsed.  An exhausted observation list models an externally interrupted
observation window. -/
def cooldownPollPhases (threshold : ℚ) : List CooldownPoll → List CooldownPhase
  | [] => []
  | poll :: rest =>
    if poll.stop_flag then [CooldownPhase.canceled]
    else
      match poll.reading with
      | none => [CooldownPhase.canceled]
      | some current_max =>
        CooldownPhase.progress ::
          (if current_max ≤ threshold then [CooldownPhase.complete]
           else if 300 ≤ poll.elapsed_s then [CooldownPhase.timeout]
           else cooldownPollPhases threshold rest)

/-- The full emitted phase sequence of a cooldown wait whose baseline
reading succeeded: the `started` event followed by the poll loop, with
`threshold = baseline + clamped margin`. -/
def cooldownPhases (baseline margin_c_raw : ℚ) (polls : List CooldownPoll) :
    List CooldownPhase :=
  CooldownPhase.started ::
    cooldownPollPhases (baseline + clampCooldownMargin margin_c_raw) polls

/-- Embeds `TemperatureInfo` (src/src-tauri/src/hardware/temperature.rs),
the temperature hints of a macmon record. -/
structure TemperatureInfo where
  cpu_temp_avg : Option ℚ
  gpu_temp_avg : Option ℚ
deriving DecidableEq, Repr

/-- Embeds `MemoryInfo` (src/src-tauri/src/hardware/macmon.rs); only
`ram_usage` is consumed by the aggregator. -/
structure MemoryInfo where
  ram_total : Option ℕ
  ram_usage : Option ℕ
  swap_total : Option ℕ
  swap_usage : Option ℕ
deriving DecidableEq, Repr

/-- Embeds `MacmonOutput` (src/src-tauri/src/hardware/macmon.rs); the
usage pairs are `(frequency_mhz, usage_percent)`. -/
structure MacmonOutput where
  timestamp : String
  temp : Option TemperatureInfo
  memory : Option MemoryInfo
  ecpu_usage : Option (ℚ × ℚ)
  pcpu_usage : Option (ℚ × ℚ)
  gpu_usage : Option (ℚ × ℚ)
  cpu_power : Option ℚ
  gpu_power : Option ℚ
  ane_power : Option ℚ
  sys_power : Option ℚ
deriving DecidableEq, Repr

/-- Embeds the per-tick snapshot construction of
`start_enhanced_monitoring` (src/src-tauri/src/hardware/mod.rs,
the `match core_temp_result` expression): merges the native sensor
reading (or its failure), the optional macmon record, the utilization
sample and the computed thermal trend into one `TelemetryUpdate`.
Energy fields are left `none` for the downstream `PowerCalculator`. -/
def buildTickTelemetry (timestamp : ℕ)
    (core_temp_result : Except String CoreTemperatureData)
    (macmon_data : Option MacmonOutput)
    (p_core_utils e_core_utils : List ℚ) (overall_util : ℚ)
    (trend : ThermalTrend) : TelemetryUpdate :=
  match core_temp_result with
  | Except.ok core_temps0 =>
    let core_temps := { core_temps0 with thermal_trend := trend }
    { timestamp_ms := timestamp
      cpu_power_watts := macmon_data.bind fun d => d.cpu_power
      gpu_power_watts := macmon_data.bind fun d => d.gpu_power
      ane_power_watts := macmon_data.bind fun d => d.ane_power
      cpu_temp_celsius := some core_temps.cpu_temp_avg
      gpu_temp_celsius :=
        (core_temps.gpu_temp_avg).orElse fun _ =>
          macmon_data.bind fun d => d.temp.bind fun t => t.gpu_temp_avg
      cpu_freq_mhz := (macmon_data.bind fun d => d.pcpu_usage).map Prod.fst
      gpu_freq_mhz := (macmon_data.bind fun d => d.gpu_usage).map Prod.fst
      ram_usage_gb :=
        ((macmon_data.bind fun d => d.memory).bind fun m => m.ram_usage).map
          fun bytes => (bytes : ℚ) / (1024 * 1024 * 1024)
      thermal_pressure := none
      ttft_ms := none
      current_tps := none
      instantaneous_tps := none
      generation_time_ms := none
      model := none
      cpu_temp_avg := some core_temps.cpu_temp_avg
      cpu_temp_max := some core_temps.cpu_temp_max
      cpu_p_core_temps := some core_temps.p_cores
      cpu_e_core_temps := some core_temps.e_cores
      gpu_temp_avg := core_temps.gpu_temp_avg
      gpu_temp_max := core_temps.gpu_temp_max
      gpu_cluster_temps := some core_temps.gpu_temps
      battery_temp_avg := core_temps.battery_temp_avg
      cpu_p_core_utilization := some p_core_utils
      cpu_e_core_utilization := some e_core_utils
      cpu_overall_utilization := some overall_util
      core_temperatures := some core_temps
      total_energy_wh := none
      cpu_energy_wh := none
      gpu_energy_wh := none
      ane_energy_wh := none
      energy_rate_wh_per_token := none }
  | Except.error _ =>
    { timestamp_ms := timestamp
      cpu_power_watts := macmon_data.bind fun d => d.cpu_power
      gpu_power_watts := macmon_data.bind fun d => d.gpu_power
      ane_power_watts := macmon_data.bind fun d => d.ane_power
      cpu_temp_celsius := macmon_data.bind fun d => d.temp.bind fun t => t.cpu_temp_avg
      gpu_temp_celsius := macmon_data.bind fun d => d.temp.bind fun t => t.gpu_temp_avg
      cpu_freq_mhz := (macmon_data.bind fun d => d.pcpu_usage).map Prod.fst
      gpu_freq_mhz := (macmon_data.bind fun d => d.gpu_usage).map Prod.fst
      ram_usage_gb :=
        ((macmon_data.bind fun d => d.memory).bind fun m => m.ram_usage).map
          fun bytes => (bytes : ℚ) / (1024 * 1024 * 1024)
      thermal_pressure := none
      ttft_ms := none
      current_tps := none
      instantaneous_tps := none
      generation_time_ms := none
      model := none
      cpu_temp_avg := macmon_data.bind fun d => d.temp.bind fun t => t.cpu_temp_avg
      cpu_temp_max := none
      cpu_p_core_temps := none
      cpu_e_core_temps := none
      gpu_temp_avg := macmon_data.bind fun d => d.temp.bind fun t => t.gpu_temp_avg
      gpu_temp_max := none
      gpu_cluster_temps := none
      battery_temp_avg := none
      cpu_p_core_utilization := some p_core_utils
      cpu_e_core_utilization := some e_core_utils
      cpu_overall_utilization := some overall_util
      core_temperatures := none
      total_energy_wh := none
      cpu_energy_wh := none
      gpu_energy_wh := none
      ane_energy_wh := none
      energy_rate_wh_per_token := none }

/-- Concrete input for the C10 witness: first sample on a fresh
calculator. -/
def c10_sample : TelemetryUpdate := create_test_telemetry 5 (some 1) none none

/-- The telemetry returned for `c10_sample` by the first call. -/
def c10_out : TelemetryUpdate :=
  { c10_sample with
    total_energy_wh := some (0 + 0 + 0)
    cpu_energy_wh := some 0
    gpu_energy_wh := some 0
    ane_energy_wh := some 0 }

/-- The calculator state after the first call on `c10_sample`. -/
def c10_state : PowerCalculator :=
  { previous_telemetry := some c10_out
    cumulative_cpu_energy_wh := 0
    cumulative_gpu_energy_wh := 0
    cumulative_ane_energy_wh := 0
    session_start_timestamp := some 5 }

/-- Concrete native reading for the C3 counterexample: success, but with
no GPU sensors (so no native GPU average). -/
def c3_core : CoreTemperatureData :=
  { p_cores := [50]
    e_cores := [40]
    cpu_temp_avg := 45
    cpu_temp_max := 50
    cpu_temp_min := 40
    gpu_temps := []
    gpu_temp_avg := none
    gpu_temp_max := none
    battery_temp_avg := none
    thermal_trend := ThermalTrend.Stable }

/-- Concrete macmon record for the C3 counterexample, carrying a GPU
temperature hint of 60 °C. -/
def c3_macmon : MacmonOutput :=
  { timestamp := "t"
    temp := some { cpu_temp_avg := none, gpu_temp_avg := some 60 }
    memory := none
    ecpu_usage := none
    pcpu_usage := none
    gpu_usage := none
    cpu_power := none
    gpu_power := none
    ane_power := none
    sys_power := none }

/-- Concrete environment for the C4 counterexample: the dynamic query
reports 4 P-cores and 4 E-cores while the enumerated total is 4. -/
def c4_env : SysctlEnv :=
  { perflevel0_physicalcpu := some 4
    perflevel1_physicalcpu := some 4
    brand_string := none }

/-- Concrete service list for the C5 counterexample: one valid reading
that only matches the GPU category. -/
def c5_services : List (String × Option ℚ) :=
  [("GPU MTR Temp Sensor", some 50)]

/-- Concrete history for the C8 witness: three samples 40, 45, 50 °C at
1-second spacing. -/
def c8_history : TemperatureHistory :=
  { readings := [(0, 40), (1000, 45), (2000, 50)], max_size := 60 }

/-! Helper lemmas for the power calculator. -/

/-- A successful update records the returned telemetry as the new previous
sample and keeps the input timestamp. -/
theorem update_ok_of_compatible (c : PowerCalculator) (t : TelemetryUpdate)
    (h : ∀ p, c.previous_telemetry = some p → p.timestamp_ms ≤ t.timestamp_ms) :
    ∃ cNext out, c.update_with_telemetry t = Except.ok (cNext, out) ∧
      cNext.previous_telemetry = some out ∧ out.timestamp_ms = t.timestamp_ms := by
  cases hc : c.previous_telemetry with
  | none =>
    simp only [PowerCalculator.update_with_telemetry, hc]
    exact ⟨_, _, rfl, rfl, rfl⟩
  | some p =>
    have hle := h p hc
    simp only [PowerCalculator.update_with_telemetry, hc, Nat.not_lt.mpr hle, if_false]
    exact ⟨_, _, rfl, rfl, rfl⟩

/-- `runUpdates` succeeds along any chain of non-decreasing timestamps
whose head is compatible with the stored previous sample. -/
theorem runUpdates_ok_aux :
    ∀ (ts : List TelemetryUpdate) (c : PowerCalculator),
      (∀ p, c.previous_telemetry = some p →
        ∀ t0 ∈ ts.head?, p.timestamp_ms ≤ t0.timestamp_ms) →
      ts.Chain' (fun a b => a.timestamp_ms ≤ b.timestamp_ms) →
      (runUpdates c ts).isOk = true := by
  intro ts
  induction ts with
  | nil => intro c _ _; rfl
  | cons t rest ih =>
    intro c hcomp hchain
    obtain ⟨cNext, out, hok, hprev, hts⟩ :=
      update_ok_of_compatible c t (fun p hp => hcomp p hp t rfl)
    rw [List.chain'_cons'] at hchain
    have : runUpdates c (t :: rest) = runUpdates cNext rest := by
      simp [runUpdates, hok]
    rw [this]
    refine ih cNext ?_ hchain.2
    intro p hp t0 ht0
    rw [hprev] at hp
    cases hp
    rw [hts]
    exact hchain.1 t0 ht0

/-- C1 helper: the exact shape of a successful update with a stored
previous sample. -/
theorem update_with_prev (c : PowerCalculator) (prev t : TelemetryUpdate)
    (hprev : c.previous_telemetry = some prev)
    (hts : prev.timestamp_ms ≤ t.timestamp_ms) :
    ∃ cNext out, c.update_with_telemetry t = Except.ok (cNext, out) ∧
      cNext.cumulative_cpu_energy_wh = c.cumulative_cpu_energy_wh +
        trapezoidStep prev.cpu_power_watts t.cpu_power_watts
          (((t.timestamp_ms - prev.timestamp_ms : ℕ) : ℚ) / 3600000) ∧
      cNext.cumulative_gpu_energy_wh = c.cumulative_gpu_energy_wh +
        trapezoidStep prev.gpu_power_watts t.gpu_power_watts
          (((t.timestamp_ms - prev.timestamp_ms : ℕ) : ℚ) / 3600000) ∧
      cNext.cumulative_ane_energy_wh = c.cumulative_ane_energy_wh +
        trapezoidStep prev.ane_power_watts t.ane_power_watts
          (((t.timestamp_ms - prev.timestamp_ms : ℕ) : ℚ) / 3600000) ∧
      cNext.previous_telemetry = some out ∧
      out.timestamp_ms = t.timestamp_ms ∧
      out.cpu_power_watts = t.cpu_power_watts ∧
      out.gpu_power_watts = t.gpu_power_watts ∧
      out.ane_power_watts = t.ane_power_watts := by
  simp only [PowerCalculator.update_with_telemetry, hprev, Nat.not_lt.mpr hts, if_false]
  exact ⟨_, _, rfl, rfl, rfl, rfl, rfl, rfl, rfl, rfl, rfl⟩

/-- C1: with a stored previous sample and a non-decreasing timestamp,
`update_with_telemetry` accrues `(P_prev + P_cur) * Δt_hours / 2` per
domain independently (with `Δt_hours = (t_cur − t_prev) / 3600000`), a
domain missing on either side accrues exactly 0 for the interval, and the
stored previous sample is replaced by the current (returned) sample
regardless of domain completeness. -/
theorem C1_update_trapezoidal_per_domain (c : PowerCalculator)
    (prev t : TelemetryUpdate)
    (hprev : c.previous_telemetry = some prev)
    (hts : prev.timestamp_ms ≤ t.timestamp_ms) :
    ∃ cNext out, c.update_with_telemetry t = Except.ok (cNext, out) ∧
      cNext.cumulative_cpu_energy_wh = c.cumulative_cpu_energy_wh +
        trapezoidStep prev.cpu_power_watts t.cpu_power_watts
          (((t.timestamp_ms - prev.timestamp_ms : ℕ) : ℚ) / 3600000) ∧
      cNext.cumulative_gpu_energy_wh = c.cumulative_gpu_energy_wh +
        trapezoidStep prev.gpu_power_watts t.gpu_power_watts
          (((t.timestamp_ms - prev.timestamp_ms : ℕ) : ℚ) / 3600000) ∧
      cNext.cumulative_ane_energy_wh = c.cumulative_ane_energy_wh +
        trapezoidStep prev.ane_power_watts t.ane_power_watts
          (((t.timestamp_ms - prev.timestamp_ms : ℕ) : ℚ) / 3600000) ∧
      cNext.previous_telemetry = some out ∧
      out.timestamp_ms = t.timestamp_ms ∧
      out.cpu_power_watts = t.cpu_power_watts ∧
      out.gpu_power_watts = t.gpu_power_watts ∧
      out.ane_power_watts = t.ane_power_watts :=
  update_with_prev c prev t hprev hts

/-- Witness for C1 at a concrete state: previous sample at t=0 with CPU 10 W
and ANE 2 W (GPU missing), current sample at t=3,600,000 ms with CPU 20 W,
GPU 7 W, ANE 4 W, starting cumulative energies 1, 2, 3 Wh. -/
theorem C1_update_trapezoidal_per_domain_witness :
    ∃ cNext out,
      (PowerCalculator.mk
          (some (create_test_telemetry 0 (some 10) none (some 2))) 1 2 3
          (some 0)).update_with_telemetry
        (create_test_telemetry 3600000 (some 20) (some 7) (some 4)) =
        Except.ok (cNext, out) ∧
      cNext.cumulative_cpu_energy_wh = 1 +
        trapezoidStep (some 10) (some 20) (((3600000 - 0 : ℕ) : ℚ) / 3600000) ∧
      cNext.cumulative_gpu_energy_wh = 2 +
        trapezoidStep none (some 7) (((3600000 - 0 : ℕ) : ℚ) / 3600000) ∧
      cNext.cumulative_ane_energy_wh = 3 +
        trapezoidStep (some 2) (some 4) (((3600000 - 0 : ℕ) : ℚ) / 3600000) ∧
      cNext.previous_telemetry = some out ∧
      out.timestamp_ms = 3600000 ∧
      out.cpu_power_watts = some 20 ∧
      out.gpu_power_watts = some 7 ∧
      out.ane_power_watts = some 4 :=
  C1_update_trapezoidal_per_domain
    (PowerCalculator.mk (some (create_test_telemetry 0 (some 10) none (some 2)))
      1 2 3 (some 0))
    (create_test_telemetry 0 (some 10) none (some 2))
    (create_test_telemetry 3600000 (some 20) (some 7) (some 4))
    rfl (by decide)

/-- C6: `reset` zeroes all cumulative totals and clears the previous
sample, and the immediately following `update_with_telemetry` call
succeeds and reports 0 Wh in every domain regardless of the sample's
power values and timestamp. -/
theorem C6_reset_then_zero_contribution (c : PowerCalculator)
    (t : TelemetryUpdate) :
    c.reset.previous_telemetry = none ∧
    c.reset.cumulative_cpu_energy_wh = 0 ∧
    c.reset.cumulative_gpu_energy_wh = 0 ∧
    c.reset.cumulative_ane_energy_wh = 0 ∧
    ∃ cNext out, c.reset.update_with_telemetry t = Except.ok (cNext, out) ∧
      out.total_energy_wh = some 0 ∧
      out.cpu_energy_wh = some 0 ∧
      out.gpu_energy_wh = some 0 ∧
      out.ane_energy_wh = some 0 ∧
      cNext.cumulative_cpu_energy_wh = 0 ∧
      cNext.cumulative_gpu_energy_wh = 0 ∧
      cNext.cumulative_ane_energy_wh = 0 := by
  refine ⟨rfl, rfl, rfl, rfl, ?_⟩
  simp only [PowerCalculator.reset, PowerCalculator.update_with_telemetry]
  exact ⟨_, _, rfl, by norm_num, rfl, rfl, rfl, rfl, rfl, rfl⟩

/-- C9: the timestamp delta is an unchecked `u64` subtraction — along any
sequence of calls with non-decreasing timestamps started on a fresh
calculator the underflow branch is unreachable, while a call whose
timestamp is smaller than the stored previous sample's timestamp hits it
(there is no internal guard). -/
theorem C9_unchecked_timestamp_subtraction :
    (∀ ts : List TelemetryUpdate,
      ts.Chain' (fun a b => a.timestamp_ms ≤ b.timestamp_ms) →
      (runUpdates PowerCalculator.new ts).isOk = true) ∧
    (∀ (c : PowerCalculator) (prev t : TelemetryUpdate),
      c.previous_telemetry = some prev →
      t.timestamp_ms < prev.timestamp_ms →
      c.update_with_telemetry t = Except.error "u64 underflow in timestamp delta") := by
  constructor
  · intro ts hchain
    refine runUpdates_ok_aux ts PowerCalculator.new ?_ hchain
    intro p hp
    simp [PowerCalculator.new] at hp
  · intro c prev t hprev hlt
    simp [PowerCalculator.update_with_telemetry, hprev, hlt]

/-- Witness for C9: a two-sample non-decreasing run succeeds, and a
backwards-timestamped call against a stored sample at t=1000 errors. -/
theorem C9_unchecked_timestamp_subtraction_witness :
    (runUpdates PowerCalculator.new
      [create_test_telemetry 0 (some 10) none none,
       create_test_telemetry 1000 (some 20) none none]).isOk = true ∧
    (PowerCalculator.mk (some (create_test_telemetry 1000 none none none))
        0 0 0 (some 0)).update_with_telemetry
      (create_test_telemetry 500 none none none) =
      Except.error "u64 underflow in timestamp delta" :=
  ⟨C9_unchecked_timestamp_subtraction.1
      [create_test_telemetry 0 (some 10) none none,
       create_test_telemetry 1000 (some 20) none none]
      (by simp [List.chain'_cons, List.chain'_singleton, create_test_telemetry]),
   C9_unchecked_timestamp_subtraction.2
      (PowerCalculator.mk (some (create_test_telemetry 1000 none none none))
        0 0 0 (some 0))
      (create_test_telemetry 1000 none none none)
      (create_test_telemetry 500 none none none)
      rfl (by decide)⟩

/-- C10: every telemetry returned by a successful `update_with_telemetry`
has all four energy fields set, with the total equal to the sum of the
CPU, GPU and ANE energies; on the very first call (fresh calculator) all
four are `some 0`. -/
theorem C10_energy_fields_total_invariant :
    (∀ (c : PowerCalculator) (t : TelemetryUpdate)
        (cNext : PowerCalculator) (out : TelemetryUpdate),
      c.update_with_telemetry t = Except.ok (cNext, out) →
      ∃ a b d, out.cpu_energy_wh = some a ∧ out.gpu_energy_wh = some b ∧
        out.ane_energy_wh = some d ∧ out.total_energy_wh = some (a + b + d)) ∧
    (∀ t : TelemetryUpdate, ∃ cNext out,
      PowerCalculator.new.update_with_telemetry t = Except.ok (cNext, out) ∧
      out.total_energy_wh = some 0 ∧ out.cpu_energy_wh = some 0 ∧
      out.gpu_energy_wh = some 0 ∧ out.ane_energy_wh = some 0) := by
  constructor
  · intro c t cNext out h
    cases hc : c.previous_telemetry with
    | none =>
      simp only [PowerCalculator.update_with_telemetry, hc, Except.ok.injEq,
        Prod.mk.injEq] at h
      obtain ⟨-, h2⟩ := h
      subst h2
      exact ⟨_, _, _, rfl, rfl, rfl, rfl⟩
    | some p =>
      simp only [PowerCalculator.update_with_telemetry, hc] at h
      split at h
      · cases h
      · simp only [Except.ok.injEq, Prod.mk.injEq] at h
        obtain ⟨-, h2⟩ := h
        subst h2
        exact ⟨_, _, _, rfl, rfl, rfl, rfl⟩
  · intro t
    simp only [PowerCalculator.new, PowerCalculator.update_with_telemetry]
    exact ⟨_, _, rfl, by norm_num, rfl, rfl, rfl⟩

/-- Witness for C10 at the concrete first call on a fresh calculator. -/
theorem C10_energy_fields_total_invariant_witness :
    ∃ a b d, c10_out.cpu_energy_wh = some a ∧ c10_out.gpu_energy_wh = some b ∧
      c10_out.ane_energy_wh = some d ∧
      c10_out.total_energy_wh = some (a + b + d) :=
  C10_energy_fields_total_invariant.1 PowerCalculator.new c10_sample
    c10_state c10_out rfl

/-- An in-range margin is left unchanged by the clamp. -/
theorem clampCooldownMargin_two : clampCooldownMargin 2 = 2 := by
  unfold clampCooldownMargin
  rw [max_eq_left (by norm_num), min_eq_left (by norm_num)]

/-- Evaluation of the C2 scenario: baseline 50 °C, margin 2 °C, readings
55, 53, 52. -/
theorem c2_phases_eval :
    cooldownPhases 50 2
        [⟨false, 0, some 55⟩, ⟨false, 1, some 53⟩, ⟨false, 2, some 52⟩] =
      [CooldownPhase.started, CooldownPhase.progress, CooldownPhase.progress,
       CooldownPhase.progress, CooldownPhase.complete] := by
  unfold cooldownPhases
  rw [clampCooldownMargin_two]
  have h52 : (50 : ℚ) + 2 = 52 := by norm_num
  rw [h52]
  decide

/-- C2 counterexample: with baseline 50 °C, margin 2 °C and per-poll
readings 55, 53, 52, the emitted sequence is NOT
started→progress→progress→complete — the loop also emits a `progress`
event for the terminating reading 52 before `complete`. -/
theorem C2_counterexample :
    ¬ (cooldownPhases 50 2
        [⟨false, 0, some 55⟩, ⟨false, 1, some 53⟩, ⟨false, 2, some 52⟩] =
      [CooldownPhase.started, CooldownPhase.progress, CooldownPhase.progress,
       CooldownPhase.complete]) := by
  rw [c2_phases_eval]
  decide

/-- C2 amended: the margin is clamped to [−20, 20]; with baseline 50 °C
and margin 2 °C the threshold is 52 °C, and readings 55, 53, 52 emit
started→progress→progress→progress→complete, terminating at the first
reading at or below the threshold (which also gets a `progress` event
before `complete`). -/
theorem C2_cooldown_sequence :
    (∀ m : ℚ, -20 ≤ clampCooldownMargin m ∧ clampCooldownMargin m ≤ 20) ∧
    clampCooldownMargin 2 = 2 ∧
    (50 : ℚ) + clampCooldownMargin 2 = 52 ∧
    cooldownPhases 50 2
        [⟨false, 0, some 55⟩, ⟨false, 1, some 53⟩, ⟨false, 2, some 52⟩] =
      [CooldownPhase.started, CooldownPhase.progress, CooldownPhase.progress,
       CooldownPhase.progress, CooldownPhase.complete] := by
  refine ⟨fun m => ⟨?_, ?_⟩, clampCooldownMargin_two, ?_, c2_phases_eval⟩
  · exact le_min (le_max_right m (-20)) (by norm_num)
  · exact min_le_right _ _
  · rw [clampCooldownMargin_two]; norm_num

/-- C3 counterexample: on a tick where the native read SUCCEEDED but
found no GPU sensor, the external macmon value back-fills the legacy
`gpu_temp_celsius` temperature field (60 °C here), contradicting
"external values back-fill a temperature field only on ticks where the
native temperature reading failed entirely". -/
theorem C3_counterexample :
    (buildTickTelemetry 1000 (Except.ok c3_core) (some c3_macmon)
        [] [] 0 ThermalTrend.Stable).gpu_temp_celsius = some 60 ∧
    c3_core.gpu_temp_avg = none := by
  exact ⟨rfl, rfl⟩

/-- C3 amended: on native-success ticks every temperature field except the
legacy `gpu_temp_celsius` comes from the native reading; `gpu_temp_celsius`
prefers the native GPU average and back-fills from the external source
whenever the native snapshot lacks one (even on success); external values
always fill power/frequency/memory; on native-failure ticks the
temperature fields come from the external source. -/
theorem C3_merge_precedence (timestamp : ℕ) (core : CoreTemperatureData)
    (mac : Option MacmonOutput) (p_utils e_utils : List ℚ) (overall : ℚ)
    (trend : ThermalTrend) (e : String) :
    ((buildTickTelemetry timestamp (Except.ok core) mac p_utils e_utils
        overall trend).cpu_temp_celsius = some core.cpu_temp_avg ∧
     (buildTickTelemetry timestamp (Except.ok core) mac p_utils e_utils
        overall trend).cpu_temp_avg = some core.cpu_temp_avg ∧
     (buildTickTelemetry timestamp (Except.ok core) mac p_utils e_utils
        overall trend).cpu_temp_max = some core.cpu_temp_max ∧
     (buildTickTelemetry timestamp (Except.ok core) mac p_utils e_utils
        overall trend).cpu_p_core_temps = some core.p_cores ∧
     (buildTickTelemetry timestamp (Except.ok core) mac p_utils e_utils
        overall trend).cpu_e_core_temps = some core.e_cores ∧
     (buildTickTelemetry timestamp (Except.ok core) mac p_utils e_utils
        overall trend).gpu_temp_avg = core.gpu_temp_avg ∧
     (buildTickTelemetry timestamp (Except.ok core) mac p_utils e_utils
        overall trend).gpu_temp_max = core.gpu_temp_max ∧
     (buildTickTelemetry timestamp (Except.ok core) mac p_utils e_utils
        overall trend).gpu_cluster_temps = some core.gpu_temps ∧
     (buildTickTelemetry timestamp (Except.ok core) mac p_utils e_utils
        overall trend).battery_temp_avg = core.battery_temp_avg ∧
     (buildTickTelemetry timestamp (Except.ok core) mac p_utils e_utils
        overall trend).gpu_temp_celsius =
       (core.gpu_temp_avg).orElse
         (fun _ => mac.bind fun d => d.temp.bind fun t => t.gpu_temp_avg) ∧
     (buildTickTelemetry timestamp (Except.ok core) mac p_utils e_utils
        overall trend).cpu_power_watts = (mac.bind fun d => d.cpu_power) ∧
     (buildTickTelemetry timestamp (Except.ok core) mac p_utils e_utils
        overall trend).gpu_power_watts = (mac.bind fun d => d.gpu_power) ∧
     (buildTickTelemetry timestamp (Except.ok core) mac p_utils e_utils
        overall trend).ane_power_watts = (mac.bind fun d => d.ane_power) ∧
     (buildTickTelemetry timestamp (Except.ok core) mac p_utils e_utils
        overall trend).cpu_freq_mhz =
       ((mac.bind fun d => d.pcpu_usage).map Prod.fst) ∧
     (buildTickTelemetry timestamp (Except.ok core) mac p_utils e_utils
        overall trend).gpu_freq_mhz =
       ((mac.bind fun d => d.gpu_usage).map Prod.fst) ∧
     (buildTickTelemetry timestamp (Except.ok core) mac p_utils e_utils
        overall trend).ram_usage_gb =
       (((mac.bind fun d => d.memory).bind fun m => m.ram_usage).map
         fun bytes => (bytes : ℚ) / (1024 * 1024 * 1024))) ∧
    ((buildTickTelemetry timestamp (Except.error e) mac p_utils e_utils
        overall trend).cpu_temp_celsius =
       (mac.bind fun d => d.temp.bind fun t => t.cpu_temp_avg) ∧
     (buildTickTelemetry timestamp (Except.error e) mac p_utils e_utils
        overall trend).gpu_temp_celsius =
       (mac.bind fun d => d.temp.bind fun t => t.gpu_temp_avg) ∧
     (buildTickTelemetry timestamp (Except.error e) mac p_utils e_utils
        overall trend).cpu_temp_avg =
       (mac.bind fun d => d.temp.bind fun t => t.cpu_temp_avg) ∧
     (buildTickTelemetry timestamp (Except.error e) mac p_utils e_utils
        overall trend).cpu_temp_max = none ∧
     (buildTickTelemetry timestamp (Except.error e) mac p_utils e_utils
        overall trend).cpu_p_core_temps = none ∧
     (buildTickTelemetry timestamp (Except.error e) mac p_utils e_utils
        overall trend).cpu_e_core_temps = none ∧
     (buildTickTelemetry timestamp (Except.error e) mac p_utils e_utils
        overall trend).gpu_temp_avg =
       (mac.bind fun d => d.temp.bind fun t => t.gpu_temp_avg) ∧
     (buildTickTelemetry timestamp (Except.error e) mac p_utils e_utils
        overall trend).gpu_temp_max = none ∧
     (buildTickTelemetry timestamp (Except.error e) mac p_utils e_utils
        overall trend).gpu_cluster_temps = none ∧
     (buildTickTelemetry timestamp (Except.error e) mac p_utils e_utils
        overall trend).battery_temp_avg = none ∧
     (buildTickTelemetry timestamp (Except.error e) mac p_utils e_utils
        overall trend).cpu_power_watts = (mac.bind fun d => d.cpu_power) ∧
     (buildTickTelemetry timestamp (Except.error e) mac p_utils e_utils
        overall trend).gpu_power_watts = (mac.bind fun d => d.gpu_power) ∧
     (buildTickTelemetry timestamp (Except.error e) mac p_utils e_utils
        overall trend).ane_power_watts = (mac.bind fun d => d.ane_power) ∧
     (buildTickTelemetry timestamp (Except.error e) mac p_utils e_utils
        overall trend).cpu_freq_mhz =
       ((mac.bind fun d => d.pcpu_usage).map Prod.fst) ∧
     (buildTickTelemetry timestamp (Except.error e) mac p_utils e_utils
        overall trend).gpu_freq_mhz =
       ((mac.bind fun d => d.gpu_usage).map Prod.fst) ∧
     (buildTickTelemetry timestamp (Except.error e) mac p_utils e_utils
        overall trend).ram_usage_gb =
       (((mac.bind fun d => d.memory).bind fun m => m.ram_usage).map
         fun bytes => (bytes : ℚ) / (1024 * 1024 * 1024))) := by
  exact ⟨⟨rfl, rfl, rfl, rfl, rfl, rfl, rfl, rfl, rfl, rfl, rfl, rfl, rfl, rfl,
    rfl, rfl⟩,
    ⟨rfl, rfl, rfl, rfl, rfl, rfl, rfl, rfl, rfl, rfl, rfl, rfl, rfl, rfl, rfl,
    rfl⟩⟩

/-! Helper lemmas for the topology detection tiers. -/

/-- A successful association-list lookup comes from a member entry. -/
theorem mem_of_lookup_eq_some {κ β : Type} [BEq κ] [LawfulBEq κ] :
    ∀ (l : List (κ × β)) (k : κ) (v : β),
      List.lookup k l = some v → (k, v) ∈ l := by
  intro l
  induction l with
  | nil => intro k v h; cases h
  | cons kv rest ih =>
    intro k v h
    obtain ⟨a, b⟩ := kv
    rw [List.lookup] at h
    by_cases hk : k == a
    · rw [hk] at h
      simp only [Option.some.injEq] at h
      subst h
      have : k = a := eq_of_beq hk
      subst this
      exact List.mem_cons_self _ _
    · rw [Bool.not_eq_true] at hk
      rw [hk] at h
      exact List.mem_cons_of_mem _ (ih k v h)

/-- Every entry of the static chip table splits its key total exactly. -/
theorem configs_entry_sum :
    ∀ entry ∈ APPLE_SILICON_CONFIGS, entry.2.1 + entry.2.2 = entry.1.2 := by
  intro entry hmem
  fin_cases hmem <;> rfl

/-- Acceptance of the dynamic tier forces the validation bounds. -/
theorem try_sysctl_detection_bounds (env : SysctlEnv) (p e : ℕ)
    (h : try_sysctl_detection env = some (p, e)) :
    0 < p ∧ 0 < e ∧ p ≤ 24 ∧ e ≤ 8 ∧ p + e ≤ 32 := by
  unfold try_sysctl_detection at h
  split at h
  · split at h
    · simp only [Option.some.injEq, Prod.mk.injEq] at h
      obtain ⟨hp, he⟩ := h
      subst hp; subst he
      assumption
    · cases h
  · cases h

/-- A successful chip lookup splits the queried total exactly. -/
theorem try_chip_lookup_detection_sum (env : SysctlEnv) (total_cores p e : ℕ)
    (name : String)
    (h : try_chip_lookup_detection env total_cores = some (p, e, name)) :
    p + e = total_cores := by
  unfold try_chip_lookup_detection at h
  cases hc : get_apple_chip_name env with
  | none => rw [hc] at h; cases h
  | some chip =>
    rw [hc] at h
    simp only [Option.some_bind] at h
    cases hl : List.lookup (chip, total_cores) APPLE_SILICON_CONFIGS with
    | none => rw [hl] at h; cases h
    | some pe =>
      rw [hl] at h
      obtain ⟨p0, e0⟩ := pe
      simp only [Option.some.injEq, Prod.mk.injEq] at h
      obtain ⟨hp, he, -⟩ := h
      subst hp; subst he
      exact configs_entry_sum _ (mem_of_lookup_eq_some _ _ _ hl)

/-- The heuristic fallback always splits the total exactly. -/
theorem fallback_core_count_detection_sum (total_cores : ℕ) :
    (fallback_core_count_detection total_cores).1 +
      (fallback_core_count_detection total_cores).2 = total_cores := by
  unfold fallback_core_count_detection
  split
  · rfl
  · rfl
  · rfl
  · rfl
  · rfl
  · rfl
  · rfl
  · rfl
  · rfl
  · rfl
  · rfl
  · simp only
    omega

/-- C4 counterexample: a tier-1 (dynamic query) result can violate
`p_cores + e_cores ≤ total_cores` — the sysctl counts are validated
against absolute bounds only, never against the total passed in. -/
theorem C4_counterexample :
    ¬ ((detect_apple_silicon_configuration c4_env 4).p_cores +
        (detect_apple_silicon_configuration c4_env 4).e_cores ≤
       (detect_apple_silicon_configuration c4_env 4).total_cores) := by
  decide

/-- C4 amended: a result produced by the table-lookup or heuristic tier
always satisfies `p_cores + e_cores = total_cores` (hence the claimed
bound); a tier-1 (dynamic query) result only satisfies the validation
bounds `0 < p ≤ 24`, `0 < e ≤ 8`, `p + e ≤ 32` and may exceed
`total_cores` when the sysctl-reported counts are inconsistent with the
enumerated total. -/
theorem C4_topology_sum_invariant (env : SysctlEnv) (total_cores : ℕ) :
    ((detect_apple_silicon_configuration env total_cores).detection_method =
        DetectionMethod.SysctlDynamic →
      0 < (detect_apple_silicon_configuration env total_cores).p_cores ∧
      0 < (detect_apple_silicon_configuration env total_cores).e_cores ∧
      (detect_apple_silicon_configuration env total_cores).p_cores ≤ 24 ∧
      (detect_apple_silicon_configuration env total_cores).e_cores ≤ 8 ∧
      (detect_apple_silicon_configuration env total_cores).p_cores +
        (detect_apple_silicon_configuration env total_cores).e_cores ≤ 32) ∧
    ((detect_apple_silicon_configuration env total_cores).detection_method ≠
        DetectionMethod.SysctlDynamic →
      (detect_apple_silicon_configuration env total_cores).p_cores +
        (detect_apple_silicon_configuration env total_cores).e_cores =
        (detect_apple_silicon_configuration env total_cores).total_cores) := by
  unfold detect_apple_silicon_configuration
  cases hs : try_sysctl_detection env with
  | some pe =>
    obtain ⟨p, e⟩ := pe
    constructor
    · intro _
      exact try_sysctl_detection_bounds env p e hs
    · intro hne
      exact absurd rfl hne
  | none =>
    cases hl : try_chip_lookup_detection env total_cores with
    | some pen =>
      obtain ⟨p, e, name⟩ := pen
      constructor
      · intro hm
        exact absurd hm (by simp)
      · intro _
        exact try_chip_lookup_detection_sum env total_cores p e name hl
    | none =>
      constructor
      · intro hm
        exact absurd hm (by simp)
      · intro _
        exact fallback_core_count_detection_sum total_cores

/-- Witness for C4 at a tier-2 environment: M3 Max with 14 cores. -/
theorem C4_topology_sum_invariant_witness :
    (detect_apple_silicon_configuration
        ⟨none, none, some "Apple M3 Max"⟩ 14).p_cores +
      (detect_apple_silicon_configuration
        ⟨none, none, some "Apple M3 Max"⟩ 14).e_cores =
      (detect_apple_silicon_configuration
        ⟨none, none, some "Apple M3 Max"⟩ 14).total_cores :=
  (C4_topology_sum_invariant ⟨none, none, some "Apple M3 Max"⟩ 14).2
    (by decide)

/-- C7: the three detection tiers apply in strict priority order — the
dynamic query result is used exactly when both sysctl counts are present
and pass the validation bounds (both positive, P ≤ 24, E ≤ 8, sum ≤ 32);
otherwise the exact (chip, total) table match is used; otherwise the
heuristic fallback — and the function always returns a result, each case
fully determined by its tier inputs. -/
theorem C7_tier_priority_order (env : SysctlEnv) (total_cores : ℕ) :
    (∀ p e, try_sysctl_detection env = some (p, e) ↔
      (env.perflevel0_physicalcpu = some p ∧
       env.perflevel1_physicalcpu = some e ∧
       0 < p ∧ 0 < e ∧ p ≤ 24 ∧ e ≤ 8 ∧ p + e ≤ 32)) ∧
    (∀ p e, try_sysctl_detection env = some (p, e) →
      detect_apple_silicon_configuration env total_cores =
        { chip_name := (get_apple_chip_name env).getD "Apple Silicon"
          total_cores := total_cores
          p_cores := p
          e_cores := e
          detection_method := DetectionMethod.SysctlDynamic }) ∧
    (try_sysctl_detection env = none →
      ∀ p e name, try_chip_lookup_detection env total_cores = some (p, e, name) →
      detect_apple_silicon_configuration env total_cores =
        { chip_name := name
          total_cores := total_cores
          p_cores := p
          e_cores := e
          detection_method := DetectionMethod.ChipLookup }) ∧
    (try_sysctl_detection env = none →
      try_chip_lookup_detection env total_cores = none →
      detect_apple_silicon_configuration env total_cores =
        { chip_name := (get_apple_chip_name env).getD "Unknown Apple Silicon"
          total_cores := total_cores
          p_cores := (fallback_core_count_detection total_cores).1
          e_cores := (fallback_core_count_detection total_cores).2
          detection_method := DetectionMethod.TotalCountHeuristic }) := by
  refine ⟨?_, ?_, ?_, ?_⟩
  · intro p e
    obtain ⟨p0?, e0?, brand?⟩ := env
    cases p0? with
    | none => simp [try_sysctl_detection]
    | some p0 =>
      cases e0? with
      | none => simp [try_sysctl_detection]
      | some e0 =>
        simp only [try_sysctl_detection]
        by_cases hc : 0 < p0 ∧ 0 < e0 ∧ p0 ≤ 24 ∧ e0 ≤ 8 ∧ p0 + e0 ≤ 32
        · rw [if_pos hc]
          constructor
          · intro h
            simp only [Option.some.injEq, Prod.mk.injEq] at h
            obtain ⟨hp, he⟩ := h
            subst hp; subst he
            exact ⟨rfl, rfl, hc⟩
          · rintro ⟨hp, he, -⟩
            simp only [Option.some.injEq] at hp he
            subst hp; subst he
            rfl
        · rw [if_neg hc]
          constructor
          · intro h; cases h
          · rintro ⟨hp, he, hb⟩
            simp only [Option.some.injEq] at hp he
            subst hp; subst he
            exact absurd hb hc
  · intro p e h
    unfold detect_apple_silicon_configuration
    rw [h]
  · intro hs p e name hl
    unfold detect_apple_silicon_configuration
    rw [hs, hl]
  · intro hs hl
    unfold detect_apple_silicon_configuration
    rw [hs, hl]

/-! Helper lemmas for the sensor categorization. -/

/-- The CPU-area buckets of the categorization (performance, efficiency,
other) are jointly non-empty exactly when some reading has a CPU-area
sensor name. -/
theorem categorize_any (l : List (String × ℚ)) :
    (!(categorize_sensors l).1.isEmpty ||
     !(categorize_sensors l).2.1.isEmpty ||
     !(categorize_sensors l).2.2.2.2.isEmpty) =
      l.any (fun s => isCpuAreaSensor s.1) := by
  induction l with
  | nil => rfl
  | cons x rest ih =>
    obtain ⟨name, temp⟩ := x
    simp only [categorize_sensors, List.any_cons]
    by_cases h1 : (strContains name "pACC MTR Temp Sensor" ||
        strContains (strToLower name) "performance") = true
    · rw [if_pos h1]
      simp [isCpuAreaSensor, h1]
    · rw [if_neg h1]
      by_cases h2 : (strContains name "eACC MTR Temp Sensor" ||
          strContains (strToLower name) "efficiency") = true
      · rw [if_pos h2]
        simp [isCpuAreaSensor, h2]
      · rw [if_neg h2]
        by_cases h3 : (strContains name "GPU MTR Temp Sensor" ||
            strContains (strToLower name) "gpu") = true
        · rw [if_pos h3]
          rw [Bool.not_eq_true] at h1 h2
          simp [isCpuAreaSensor, h1, h2, h3, ih]
        · rw [if_neg h3]
          by_cases h4 : strContains name "gas gauge battery" = true
          · rw [if_pos h4]
            rw [Bool.not_eq_true] at h1 h2 h3
            simp [isCpuAreaSensor, h1, h2, h3, h4, ih]
          · rw [if_neg h4]
            rw [Bool.not_eq_true] at h1 h2 h3 h4
            simp [isCpuAreaSensor, h1, h2, h3, h4]

/-- The success of `read_core_temperatures` on an enumerated list depends
exactly on some usable reading having a CPU-area sensor name. -/
theorem read_isOk_eval (l : List (String × Option ℚ)) :
    (read_core_temperatures (Except.ok ()) (some l)).isOk =
      (usableReadings l).any (fun s => isCpuAreaSensor s.1) := by
  rw [← categorize_any (usableReadings l)]
  simp only [read_core_temperatures, get_temperature_readings]
  by_cases he : (usableReadings l).isEmpty = true
  · have hnil : usableReadings l = [] := by
      cases hq : usableReadings l with
      | nil => rfl
      | cons a as => rw [hq] at he; simp [List.isEmpty] at he
    rw [hnil]
    rfl
  · rw [if_neg he]
    by_cases hg : (categorize_sensors (usableReadings l)).1.isEmpty = true ∧
        (categorize_sensors (usableReadings l)).2.1.isEmpty = true ∧
        ¬ (categorize_sensors (usableReadings l)).2.2.2.2.isEmpty = true
    · rw [if_pos hg, List.take_append_drop]
      rw [if_neg hg.2.2]
      have ho : (categorize_sensors (usableReadings l)).2.2.2.2.isEmpty = false :=
        Bool.not_eq_true _ ▸ hg.2.2
      rw [ho]
      simp only [Bool.not_false, Bool.or_true]
      rfl
    · rw [if_neg hg]
      by_cases hac : ((categorize_sensors (usableReadings l)).1 ++
          (categorize_sensors (usableReadings l)).2.1).isEmpty = true
      · rw [if_pos hac]
        rw [List.isEmpty_iff, List.append_eq_nil] at hac
        obtain ⟨hp, hep⟩ := hac
        have ho : (categorize_sensors (usableReadings l)).2.2.2.2.isEmpty = true := by
          by_contra hno
          exact hg ⟨by rw [hp]; rfl, by rw [hep]; rfl, hno⟩
        rw [hp, hep, ho]
        rfl
      · rw [if_neg hac]
        rw [List.isEmpty_iff, List.append_eq_nil, not_and_or] at hac
        rcases hac with hp | hep
        · have hp2 : (categorize_sensors (usableReadings l)).1.isEmpty = false := by
            cases hq : (categorize_sensors (usableReadings l)).1 with
            | nil => exact absurd hq hp
            | cons a as => rfl
          rw [hp2]
          simp only [Bool.not_false, Bool.true_or]
          rfl
        · have hep2 : (categorize_sensors (usableReadings l)).2.1.isEmpty = false := by
            cases hq : (categorize_sensors (usableReadings l)).2.1 with
            | nil => exact absurd hq hep
            | cons a as => rfl
          rw [hep2]
          simp only [Bool.not_false, Bool.true_or, Bool.or_true]
          rfl

/-- C5 counterexample: one usable reading (a 50 °C GPU sensor) survives
the validity filter, yet `read_core_temperatures` returns an error
("No CPU temperature sensors found") because no reading is categorized
into a CPU-area bucket. -/
theorem C5_counterexample :
    (read_core_temperatures (Except.ok ()) (some c5_services)).isOk = false ∧
    get_temperature_readings (some c5_services) =
      Except.ok [("GPU MTR Temp Sensor", 50)] := ⟨rfl, rfl⟩

/-- C5 amended: `read_core_temperatures` succeeds exactly when sensor
initialization and enumeration succeed AND at least one usable reading
(value in the open interval (0, 150)) carries a CPU-area sensor name
(performance, efficiency, or any name not categorized as GPU/battery);
it errors when enumeration fails, when no usable reading survives, and
also when all usable readings are GPU/battery sensors. -/
theorem C5_error_conditions (init : Except String Unit)
    (services : Option (List (String × Option ℚ))) :
    (read_core_temperatures init services).isOk = true ↔
      (init.isOk = true ∧ ∃ l, services = some l ∧
        (usableReadings l).any (fun s => isCpuAreaSensor s.1) = true) := by
  cases init with
  | error e =>
    constructor
    · intro h; cases h
    · rintro ⟨h, -⟩; cases h
  | ok u =>
    cases u
    cases services with
    | none =>
      constructor
      · intro h; cases h
      · rintro ⟨-, l2, hl2, -⟩; cases hl2
    | some l =>
      rw [read_isOk_eval l]
      constructor
      · intro h
        exact ⟨rfl, l, rfl, h⟩
      · rintro ⟨-, l2, hl2, h⟩
        cases hl2
        exact h

/-- Witness for C5 at a service list with one performance-area sensor. -/
theorem C5_error_conditions_witness :
    (read_core_temperatures (Except.ok ())
      (some [("pACC MTR Temp Sensor", some 50)])).isOk = true :=
  (C5_error_conditions (Except.ok ())
    (some [("pACC MTR Temp Sensor", some 50)])).mpr
      ⟨rfl, [("pACC MTR Temp Sensor", some 50)], rfl, by decide⟩

/-- `u64` wrapping subtraction agrees with `ℕ` subtraction when no
underflow occurs. -/
theorem wsub64_eq (a b : ℕ) (hb : b ≤ a) (ha : a < 2 ^ 64) :
    wsub64 a b = a - b := by
  unfold wsub64
  have h64 : (2 : ℕ) ^ 64 = 18446744073709551616 := by norm_num
  rw [h64] at ha ⊢
  omega

/-- C8: with in-order timestamps, `get_trend` returns Stable whenever
fewer than 3 stored samples fall within the trailing window; otherwise it
classifies `Δ = last − first` over the in-window samples as
`Δ > 5 → Rapid`, `1 < Δ ≤ 5 → Heating`, `Δ < −5 → Rapid`,
`−5 ≤ Δ < −1 → Cooling`, else Stable. -/
theorem C8_get_trend_spec (h : TemperatureHistory) (window_ms : ℕ)
    (hmono : ∀ r ∈ h.readings, r.1 ≤ (h.readings.getLast?.getD (0, 0)).1)
    (hbound : (h.readings.getLast?.getD (0, 0)).1 < 2 ^ 64) :
    ((inWindowSpec h window_ms).length < 3 →
      h.get_trend window_ms = ThermalTrend.Stable) ∧
    (3 ≤ (inWindowSpec h window_ms).length →
      h.get_trend window_ms = classifyTrendSpec
        (((inWindowSpec h window_ms).getLast?.getD (0, 0)).2 -
         ((inWindowSpec h window_ms).head?.getD (0, 0)).2)) := by
  have hfilt :
      (h.readings.filter fun r =>
        wsub64 (h.readings.getLast?.getD (0, 0)).1 r.1 ≤ window_ms) =
      inWindowSpec h window_ms := by
    unfold inWindowSpec
    refine List.filter_congr ?_
    intro x hx
    simp only [wsub64_eq (h.readings.getLast?.getD (0, 0)).1 x.1 (hmono x hx) hbound]
  constructor
  · intro hlt
    simp only [TemperatureHistory.get_trend]
    by_cases h3 : h.readings.length < 3
    · rw [if_pos h3]
    · rw [if_neg h3, hfilt, if_pos hlt]
  · intro hge
    simp only [TemperatureHistory.get_trend]
    have hle := List.length_filter_le
      (fun r => decide (wsub64 (h.readings.getLast?.getD (0, 0)).1 r.1 ≤ window_ms))
      h.readings
    rw [hfilt] at hle
    have h3 : ¬ h.readings.length < 3 := by omega
    rw [if_neg h3, hfilt, if_neg (by omega : ¬ (inWindowSpec h window_ms).length < 3)]
    generalize (((inWindowSpec h window_ms).getLast?.getD (0, 0)).2 -
      ((inWindowSpec h window_ms).head?.getD (0, 0)).2) = d
    unfold classifyTrendSpec
    by_cases hA : 5 < d
    · rw [if_pos hA, if_pos hA]
    · rw [if_neg hA, if_neg hA]
      by_cases hB : 1 < d
      · rw [if_pos hB, if_pos ⟨hB, by linarith⟩]
      · rw [if_neg hB, if_neg (show ¬ (1 < d ∧ d ≤ 5) from fun hc => hB hc.1)]
        by_cases hC : d < -5
        · rw [if_pos hC, if_pos hC]
        · rw [if_neg hC, if_neg hC]
          by_cases hD : d < -1
          · rw [if_pos hD, if_pos ⟨by linarith, hD⟩]
          · rw [if_neg hD,
              if_neg (show ¬ (-5 ≤ d ∧ d < -1) from fun hc => hD hc.2)]

/-- Witness for C8: three in-window samples rising 40 → 45 → 50 °C give
Δ = 10 > 5, hence Rapid. -/
theorem C8_get_trend_spec_witness :
    c8_history.get_trend 10000 = ThermalTrend.Rapid := by
  have h := (C8_get_trend_spec c8_history 10000 (by decide) (by decide)).2
    (by decide)
  rw [h]
  have hl : inWindowSpec c8_history 10000 = [(0, 40), (1000, 45), (2000, 50)] := by
    decide
  rw [hl]
  norm_num [classifyTrendSpec]

/-- Witness for C7: an environment whose dynamic tier fails and whose
brand string resolves in the table — tier 2 determines the result. -/
theorem C7_tier_priority_order_witness :
    detect_apple_silicon_configuration ⟨none, none, some "Apple M4 Pro"⟩ 12 =
      { chip_name := "M4 Pro"
        total_cores := 12
        p_cores := 8
        e_cores := 4
        detection_method := DetectionMethod.ChipLookup } :=
  (C7_tier_priority_order ⟨none, none, some "Apple M4 Pro"⟩ 12).2.2.1
    rfl 8 4 "M4 Pro" (by decide)

end A2O
